import Mathlib

/-!
Verification of the `twvd/egui` excerpt:
`crates/egui_kittest/src/wgpu.rs` (the `TestRenderer` snapshot renderer) and
`crates/egui/src/containers/mod.rs` (the container-widget module index).

The GPU API (`wgpu`), the `egui_wgpu` renderer and the harness internals are
external to the verified file; they are embedded as abstract handle types and
as oracle functions collected in environment structures.  The control flow of
`TestRenderer::new` and `TestRenderer::render` is translated faithfully; every
GPU call the code performs is recorded in an explicit trace of `Step` values,
in the order the code performs them.  A Rust `.expect(..)` panic is modelled
as `Except.error msg`.
-/

namespace Egui

/-- Abstract handle for a `wgpu::Device` (behind `Arc`; cloning is identity). -/
structure Device where
  id : Nat
deriving DecidableEq, Repr

/-- Abstract handle for a `wgpu::Queue` (behind `Arc`; cloning is identity). -/
structure Queue where
  id : Nat
deriving DecidableEq, Repr

/-- Abstract handle for a `wgpu::Adapter`. -/
structure Adapter where
  id : Nat
deriving DecidableEq, Repr

/-- Abstract value of `wgpu::Backends` (a bitset in the source). -/
abbrev Backends := Nat

/-- `wgpu::PowerPreference`, as used by `RequestAdapterOptions`. -/
inductive PowerPreference where
  | noPreference
  | lowPower
  | highPerformance
deriving DecidableEq, Repr

/-- Abstract `wgpu::DeviceDescriptor` (its contents are opaque to the excerpt). -/
structure DeviceDescriptor where
  tag : Nat
deriving DecidableEq, Repr

/-- Abstract `epaint::TextureId`. -/
abbrev TextureId := Nat

/-- Abstract `epaint::ImageDelta`. -/
abbrev ImageDelta := Nat

/-- Modelled from the spec and the loop in `TestRenderer::render`: an
`epaint::textures::TexturesDelta` carries an ordered list `set` of
texture-id/delta pairs (the `free` list is not touched by the excerpt). -/
structure TexturesDelta where
  set : List (TextureId × ImageDelta)
  free : List TextureId
deriving DecidableEq, Repr

/-- Abstract `epaint::ClippedShape`. -/
abbrev Shape := Nat

/-- Abstract `epaint::ClippedPrimitive` produced by tessellation. -/
abbrev Primitive := Nat

/-- Modelled from the spec: the pieces of an `egui::Context` that
`TestRenderer::render` reads.  Coordinates are rationals standing in for the
`f32` values of `screen_rect().size()` and `pixels_per_point()`; the context's
tessellator is an oracle function. -/
structure Context where
  screenRectSize : Rat × Rat
  pixelsPerPoint : Rat
  tessellate : List Shape → Rat → List Primitive

/-- Modelled from the spec: the `egui::FullOutput` returned by
`Harness::output`, of which the excerpt only reads `shapes`. -/
structure FullOutput where
  shapes : List Shape

/-- Modelled from the spec: the `egui_kittest::Harness` (its definition is not
part of the excerpt).  `TestRenderer::render` reads its accumulated
`texture_deltas`, its `ctx` and its last `output()`. -/
structure Harness where
  textureDeltas : List TexturesDelta
  ctx : Context
  output : FullOutput

/-- The snapshot test renderer of `egui_kittest` (`wgpu.rs`, lines 13-17):
exactly three fields. -/
structure TestRenderer where
  device : Device
  queue : Queue
  dithering : Bool
deriving DecidableEq, Repr

namespace TestRenderer

/-- `TestRenderer::create` (`wgpu.rs`, lines 71-77). -/
def create (device : Device) (queue : Queue) : TestRenderer :=
  { device := device, queue := queue, dithering := false }

/-- `TestRenderer::with_dithering` (`wgpu.rs`, lines 83-86). -/
def with_dithering (self : TestRenderer) (dithering : Bool) : TestRenderer :=
  { self with dithering := dithering }

end TestRenderer

/-- Modelled from the spec: `egui_wgpu::WgpuSetup` (defined in the
`egui_wgpu` crate, which is not under the excerpt).  Its two variants and
their fields are reconstructed from the `match` in `TestRenderer::new`:
`CreateNew` carries backend/power/fallback options, a device-descriptor
callback, a trace path and an optional native adapter selector;
`Existing` carries already-created device and queue handles. -/
inductive WgpuSetup where
  | createNew
      (supportedBackends : Backends)
      (powerPreference : PowerPreference)
      (forceFallbackAdapter : Bool)
      (deviceDescriptor : Adapter → DeviceDescriptor)
      (tracePath : Option String)
      (nativeAdapterSelector : Option (List Adapter → Option Adapter))
  | existing (device : Device) (queue : Queue)

/-- Oracle for the GPU calls made by `TestRenderer::new`: adapter enumeration,
`request_adapter` and `request_device`.  A `none` result models the external
call failing (which the source turns into a panic via `.expect`). -/
structure GpuEnv where
  enumerateAdapters : Backends → List Adapter
  requestAdapter : PowerPreference → Bool → Option Adapter
  requestDevice : Adapter → DeviceDescriptor → Option String → Option (Device × Queue)

/-- One GPU call performed by `TestRenderer::new`, recorded in order. -/
inductive NewStep where
  | createInstance (backends : Backends)
  | enumerateAdapters (backends : Backends)
  | selectAdapter
  | requestAdapter (power : PowerPreference) (forceFallback : Bool)
  | requestDevice
deriving DecidableEq, Repr

/-- The adapter `TestRenderer::new` obtains on the `CreateNew` path: through
the native adapter selector when one is given, otherwise through
`request_adapter` (`wgpu.rs`, lines 36-54). -/
def adapterOf (env : GpuEnv) (sb : Backends) (pp : PowerPreference) (ff : Bool)
    (sel : Option (List Adapter → Option Adapter)) : Option Adapter :=
  match sel with
  | some selector => selector (env.enumerateAdapters sb)
  | none => env.requestAdapter pp ff

/-- `TestRenderer::new` (`wgpu.rs`, lines 21-68), with the GPU calls it makes
recorded as a trace.  The Rust function returns `Self` and panics via
`.expect` when the adapter or the device cannot be obtained; a panic is
modelled as `Except.error` carrying the panic message, so an `.error` result
is an abort, not a recoverable error value. -/
def TestRenderer.new (env : GpuEnv) (setup : WgpuSetup) :
    List NewStep × Except String TestRenderer :=
  match setup with
  | .createNew sb pp ff dd tp sel =>
    let t0 := [NewStep.createInstance sb]
    match sel with
    | some selector =>
      let t1 := t0 ++ [NewStep.enumerateAdapters sb, NewStep.selectAdapter]
      match selector (env.enumerateAdapters sb) with
      | none => (t1, .error "No adapter found.")
      | some adapter =>
        let t2 := t1 ++ [NewStep.requestDevice]
        match env.requestDevice adapter (dd adapter) tp with
        | none => (t2, .error "Failed to request device")
        | some dq => (t2, .ok (TestRenderer.create dq.1 dq.2))
    | none =>
      let t1 := t0 ++ [NewStep.requestAdapter pp ff]
      match env.requestAdapter pp ff with
      | none => (t1, .error "No adapter found using `request_adapter`")
      | some adapter =>
        let t2 := t1 ++ [NewStep.requestDevice]
        match env.requestDevice adapter (dd adapter) tp with
        | none => (t2, .error "Failed to request device")
        | some dq => (t2, .ok (TestRenderer.create dq.1 dq.2))
  | .existing d q => ([], .ok (TestRenderer.create d q))

/-- The texture formats the excerpt mentions (`TextureFormat::Rgba8Unorm`). -/
inductive TexFormat where
  | rgba8Unorm
deriving DecidableEq, Repr

/-- A `wgpu::Color`, with rationals standing in for the `f64` channels. -/
structure Color where
  r : Rat
  g : Rat
  b : Rat
  a : Rat
deriving DecidableEq, Repr

/-- `wgpu::Color::TRANSPARENT`. -/
def Color.transparent : Color := ⟨0, 0, 0, 0⟩

/-- The load operation of a render-pass color attachment. -/
inductive LoadOp where
  | clear (color : Color)
  | load
deriving DecidableEq, Repr

/-- One GPU/egui call performed by `TestRenderer::render`, in the order the
source performs them, with the handles and arguments the source passes. -/
inductive Step where
  | createRenderer (device : Device) (format : TexFormat) (msaaSamples : Nat)
      (dithering : Bool)
  | updateTexture (device : Device) (queue : Queue) (id : TextureId)
      (delta : ImageDelta)
  | createCommandEncoder (device : Device)
  | tessellate (pixelsPerPoint : Rat) (result : List Primitive)
  | updateBuffers (device : Device) (queue : Queue) (primitives : List Primitive)
  | createTexture (device : Device) (width height : Nat) (format : TexFormat)
  | beginRenderPass (loadOp : LoadOp)
  | draw (primitives : List Primitive)
  | submit (queue : Queue)
  | devicePoll (device : Device)
  | readBackTexture (device : Device) (queue : Queue)
deriving DecidableEq, Repr

/-- One RGBA pixel value, abstractly. -/
abbrev Pixel := Nat

/-- The `image::RgbaImage` returned by `TestRenderer::render`. -/
structure RgbaImage where
  width : Nat
  height : Nat
  data : List Pixel
deriving DecidableEq, Repr

/-- Modelled from the spec: the oracle for the external effects of the render
pipeline.  `texture_to_image` (a module of `egui_kittest` not in the excerpt)
"reads the texture back into the returned image": its pixel contents are an
arbitrary function of everything the pipeline did (the trace) and of the
texture dimensions. -/
structure RenderEnv where
  readBack : List Step → Nat → Nat → List Pixel

/-- Round-half-away-from-zero on rationals: the behaviour of Rust
`f32::round`, applied by the source to the screen size in pixels. -/
def rustRound (x : Rat) : Int :=
  if 0 ≤ x then (2 * x.num + (x.den : Int)).ediv (2 * (x.den : Int))
  else -((2 * (-x).num + ((-x).den : Int)).ediv (2 * ((-x).den : Int)))

/-- The largest `u32` value. -/
def U32MAX : Int := 4294967295

/-- A Rust `as u32` cast applied to an already-rounded float: it saturates at
the bounds of `u32`. -/
def intAsU32 (r : Int) : Nat := (min (max r 0) U32MAX).toNat

/-- The source expression `size.round() as u32` on one coordinate. -/
def roundToU32 (x : Rat) : Nat := intAsU32 (rustRound x)

/-- `TestRenderer::render` (`wgpu.rs`, lines 89-174), translated call by
call.  Every GPU/egui call is appended to the trace in source order:
create a fresh `egui_wgpu::Renderer`, upload the harness's texture deltas,
create a command encoder, tessellate the output shapes, upload the
vertex/index buffers, create the render-target texture, run one render pass
that clears to transparent and draws, submit to the queue, poll the device
and read the texture back.  The function is total: the source has no
`.expect`/`unwrap` and returns `RgbaImage` directly. -/
def TestRenderer.render (env : RenderEnv) (self : TestRenderer) (harness : Harness) :
    RgbaImage × List Step :=
  let ppp := harness.ctx.pixelsPerPoint
  let t0 := [Step.createRenderer self.device TexFormat.rgba8Unorm 1 self.dithering]
  let t1 := t0 ++ (harness.textureDeltas.map (fun delta =>
      delta.set.map (fun p => Step.updateTexture self.device self.queue p.1 p.2))).flatten
  let t2 := t1 ++ [Step.createCommandEncoder self.device]
  let sizeX := harness.ctx.screenRectSize.1 * ppp
  let sizeY := harness.ctx.screenRectSize.2 * ppp
  let widthPx := roundToU32 sizeX
  let heightPx := roundToU32 sizeY
  let tessellated := harness.ctx.tessellate harness.output.shapes ppp
  let t3 := t2 ++ [Step.tessellate ppp tessellated]
  let t4 := t3 ++ [Step.updateBuffers self.device self.queue tessellated]
  let t5 := t4 ++ [Step.createTexture self.device widthPx heightPx TexFormat.rgba8Unorm]
  let t6 := t5 ++ [Step.beginRenderPass (LoadOp.clear Color.transparent),
                   Step.draw tessellated]
  let t7 := t6 ++ [Step.submit self.queue]
  let t8 := t7 ++ [Step.devicePoll self.device]
  let t9 := t8 ++ [Step.readBackTexture self.device self.queue]
  ({ width := widthPx, height := heightPx, data := env.readBack t9 widthPx heightPx }, t9)

/-- Does a step use only the given device and queue handles (its other
arguments aside)?  Steps that touch no handle pass vacuously. -/
def Step.usesOnly (d : Device) (q : Queue) : Step → Bool
  | .createRenderer dev _ _ _ => dev = d
  | .updateTexture dev qu _ _ => dev = d && qu = q
  | .createCommandEncoder dev => dev = d
  | .tessellate _ _ => true
  | .updateBuffers dev qu _ => dev = d && qu = q
  | .createTexture dev _ _ _ => dev = d
  | .beginRenderPass _ => true
  | .draw _ => true
  | .submit qu => qu = q
  | .devicePoll dev => dev = d
  | .readBackTexture dev qu => dev = d && qu = q

/-! The module index `crates/egui/src/containers/mod.rs`, embedded as the
list of items the file declares. -/

/-- Rust item visibility, as it appears in `containers/mod.rs`. -/
inductive Visibility where
  | publicVis
  | crateVis
  | privateVis
deriving DecidableEq, Repr

/-- One entry of a `pub use` list: either a single named item re-exported
from a submodule, or a glob (`module::*`). -/
inductive UseTree where
  | named (module item : String)
  | glob (module : String)
deriving DecidableEq, Repr

/-- One top-level item of a Rust module file.  The constructors beyond
`modDecl` and `pubUse` cover the kinds of own definitions (data or logic) a
module file could contain, so that their absence is expressible. -/
inductive ModItem where
  | modDecl (vis : Visibility) (name : String)
  | pubUse (tree : UseTree)
  | structDef (name : String)
  | enumDef (name : String)
  | traitDef (name : String)
  | fnDef (name : String)
  | implBlock (name : String)
  | constDef (name : String)
  | staticDef (name : String)
deriving DecidableEq, Repr

/-- The items of `containers/mod.rs`, in file order: ten submodule
declarations (lines 5-14) followed by the `pub use` list (lines 16-27). -/
def containersItems : List ModItem :=
  [.modDecl .crateVis "area",
   .modDecl .publicVis "collapsing_header",
   .modDecl .privateVis "combo_box",
   .modDecl .crateVis "frame",
   .modDecl .publicVis "group",
   .modDecl .publicVis "panel",
   .modDecl .publicVis "popup",
   .modDecl .crateVis "resize",
   .modDecl .publicVis "scroll_area",
   .modDecl .crateVis "window",
   .pubUse (.named "area" "Area"),
   .pubUse (.named "area" "AreaState"),
   .pubUse (.named "collapsing_header" "CollapsingHeader"),
   .pubUse (.named "collapsing_header" "CollapsingResponse"),
   .pubUse (.glob "combo_box"),
   .pubUse (.named "frame" "Frame"),
   .pubUse (.named "group" "Group"),
   .pubUse (.named "panel" "CentralPanel"),
   .pubUse (.named "panel" "SidePanel"),
   .pubUse (.named "panel" "TopBottomPanel"),
   .pubUse (.glob "popup"),
   .pubUse (.named "resize" "Resize"),
   .pubUse (.named "scroll_area" "ScrollArea"),
   .pubUse (.named "window" "Window")]

/-- Is an item a submodule declaration or a re-export, as opposed to a
definition of data or logic of the module's own? -/
def ModItem.isModOrReexport : ModItem → Bool
  | .modDecl _ _ => true
  | .pubUse _ => true
  | _ => false

/-! Concrete sample values used to instantiate theorems with hypotheses. -/

/-- A concrete device handle. -/
def sampleDevice : Device := ⟨0⟩

/-- A concrete queue handle. -/
def sampleQueue : Queue := ⟨1⟩

/-- A concrete renderer as `TestRenderer::create` builds it. -/
def sampleRenderer : TestRenderer := TestRenderer.create sampleDevice sampleQueue

/-- A concrete render environment whose readback returns no pixels. -/
def sampleRenderEnv : RenderEnv := ⟨fun _ _ _ => []⟩

/-- A concrete GPU environment on which every acquisition call fails. -/
def failGpuEnv : GpuEnv :=
  { enumerateAdapters := fun _ => []
    requestAdapter := fun _ _ => none
    requestDevice := fun _ _ _ => none }

/-- A concrete harness: one texture delta, a 3 x 2 point screen rect at
2 pixels per point, and one shape. -/
def sampleHarness : Harness :=
  { textureDeltas := [⟨[(1, 5)], []⟩]
    ctx :=
      { screenRectSize := (3, 2)
        pixelsPerPoint := 2
        tessellate := fun _ _ => [7] }
    output := ⟨[4]⟩ }

/-! Theorems for the claims. -/

/-- C6: the containers module is a pure re-export index: it publicly
re-exports the panel types (`CentralPanel`, `SidePanel`, `TopBottomPanel`),
`Window`, `ScrollArea` and the popup module's items, as well as `Area`,
`CollapsingHeader`, the combo box items, `Frame`, `Group` and `Resize`, and
every item of the file is a submodule declaration or a re-export — it defines
no data or logic of its own. -/
theorem containers_pure_reexport_index :
    containersItems.all ModItem.isModOrReexport = true ∧
    ModItem.pubUse (.named "panel" "CentralPanel") ∈ containersItems ∧
    ModItem.pubUse (.named "panel" "SidePanel") ∈ containersItems ∧
    ModItem.pubUse (.named "panel" "TopBottomPanel") ∈ containersItems ∧
    ModItem.pubUse (.named "window" "Window") ∈ containersItems ∧
    ModItem.pubUse (.named "scroll_area" "ScrollArea") ∈ containersItems ∧
    ModItem.pubUse (.glob "popup") ∈ containersItems ∧
    ModItem.pubUse (.named "area" "Area") ∈ containersItems ∧
    ModItem.pubUse (.named "collapsing_header" "CollapsingHeader") ∈ containersItems ∧
    ModItem.pubUse (.glob "combo_box") ∈ containersItems ∧
    ModItem.pubUse (.named "frame" "Frame") ∈ containersItems ∧
    ModItem.pubUse (.named "group" "Group") ∈ containersItems ∧
    ModItem.pubUse (.named "resize" "Resize") ∈ containersItems := by
  decide

/-- C9: on the `WgpuSetup::Existing` path, `TestRenderer::new` performs no
GPU call at all (empty trace: no instance creation, no adapter enumeration,
no device request) and returns exactly the device and queue handles given in
the configuration; this path cannot abort. -/
theorem new_existing_uses_given_handles (env : GpuEnv) (d : Device) (q : Queue) :
    TestRenderer.new env (.existing d q) =
      ([], Except.ok { device := d, queue := q, dithering := false }) := rfl

/-- C7: `TestRenderer::render` has no retry or failure-recovery logic: the
sequence of GPU calls it performs never depends on the results the GPU
environment returns, so no branch or retry is taken on a GPU outcome, and
the function itself has no error result to handle one in. -/
theorem render_no_retry_no_branch_on_gpu (env₁ env₂ : RenderEnv)
    (r : TestRenderer) (h : Harness) :
    (TestRenderer.render env₁ r h).2 = (TestRenderer.render env₂ r h).2 := rfl

/-- C4: `TestRenderer::render` is total and always produces an `RgbaImage`
(there is no error return path): the result is the image read back from the
texture at the end of the pipeline. -/
theorem render_total_returns_image (env : RenderEnv) (r : TestRenderer) (h : Harness) :
    ∃ img : RgbaImage,
      TestRenderer.render env r h = (img, (TestRenderer.render env r h).2) ∧
      img.data = env.readBack (TestRenderer.render env r h).2 img.width img.height :=
  ⟨(TestRenderer.render env r h).1, rfl, rfl⟩

/-- C1: `TestRenderer::render` executes a fixed straight-line pipeline, in
this order: create a fresh `egui_wgpu` renderer, upload the harness's texture
deltas, create a command encoder, tessellate the output shapes, upload the
vertex/index buffers, create the render-target texture, run a single render
pass on it, submit to the queue, poll and read the texture back — with no
branching between these steps (the trace is this fixed concatenation for
every input). -/
theorem render_fixed_pipeline (env : RenderEnv) (r : TestRenderer) (h : Harness) :
    (TestRenderer.render env r h).2 =
      Step.createRenderer r.device TexFormat.rgba8Unorm 1 r.dithering ::
      ((h.textureDeltas.map (fun delta =>
          delta.set.map (fun p => Step.updateTexture r.device r.queue p.1 p.2))).flatten ++
       [Step.createCommandEncoder r.device,
        Step.tessellate h.ctx.pixelsPerPoint
          (h.ctx.tessellate h.output.shapes h.ctx.pixelsPerPoint),
        Step.updateBuffers r.device r.queue
          (h.ctx.tessellate h.output.shapes h.ctx.pixelsPerPoint),
        Step.createTexture r.device
          (roundToU32 (h.ctx.screenRectSize.1 * h.ctx.pixelsPerPoint))
          (roundToU32 (h.ctx.screenRectSize.2 * h.ctx.pixelsPerPoint))
          TexFormat.rgba8Unorm,
        Step.beginRenderPass (LoadOp.clear Color.transparent),
        Step.draw (h.ctx.tessellate h.output.shapes h.ctx.pixelsPerPoint),
        Step.submit r.queue,
        Step.devicePoll r.device,
        Step.readBackTexture r.device r.queue]) := by
  simp [TestRenderer.render]

/-- Helper: the trace of `TestRenderer::render`, flattened to one list. -/
theorem render_steps_eq (env : RenderEnv) (r : TestRenderer) (h : Harness) :
    (TestRenderer.render env r h).2 =
      Step.createRenderer r.device TexFormat.rgba8Unorm 1 r.dithering ::
      ((h.textureDeltas.map (fun delta =>
          delta.set.map (fun p => Step.updateTexture r.device r.queue p.1 p.2))).flatten ++
       [Step.createCommandEncoder r.device,
        Step.tessellate h.ctx.pixelsPerPoint
          (h.ctx.tessellate h.output.shapes h.ctx.pixelsPerPoint),
        Step.updateBuffers r.device r.queue
          (h.ctx.tessellate h.output.shapes h.ctx.pixelsPerPoint),
        Step.createTexture r.device
          (roundToU32 (h.ctx.screenRectSize.1 * h.ctx.pixelsPerPoint))
          (roundToU32 (h.ctx.screenRectSize.2 * h.ctx.pixelsPerPoint))
          TexFormat.rgba8Unorm,
        Step.beginRenderPass (LoadOp.clear Color.transparent),
        Step.draw (h.ctx.tessellate h.output.shapes h.ctx.pixelsPerPoint),
        Step.submit r.queue,
        Step.devicePoll r.device,
        Step.readBackTexture r.device r.queue]) := by
  simp [TestRenderer.render]

/-- The rounded pixel count is nonnegative when the size is. -/
theorem rustRound_nonneg (x : Rat) (hx : 0 ≤ x) : 0 ≤ rustRound x := by
  have hnum : 0 ≤ x.num := Rat.num_nonneg.mpr hx
  have hden : 0 ≤ (x.den : Int) := Int.natCast_nonneg _
  unfold rustRound
  rw [if_pos hx]
  exact Int.ediv_nonneg (by omega) (by omega)

/-- Within the `u32` range, the saturating cast is the plain rounded value. -/
theorem roundToU32_eq_toNat (x : Rat) (hx : 0 ≤ x) (hb : rustRound x ≤ U32MAX) :
    roundToU32 x = (rustRound x).toNat := by
  have h0 : 0 ≤ rustRound x := rustRound_nonneg x hx
  unfold roundToU32 intAsU32
  rw [max_eq_left h0, min_eq_left hb]

/-- C3: a `TestRenderer` is exactly its three fields (device, queue,
dithering flag); `create` stores the given handles, `with_dithering` leaves
them unchanged, and every step of every `render` call uses only the stored
device and queue handles — no operation replaces them. -/
theorem testRenderer_fields_fixed :
    (∀ r : TestRenderer, r = ⟨r.device, r.queue, r.dithering⟩) ∧
    (∀ d q, (TestRenderer.create d q).device = d ∧ (TestRenderer.create d q).queue = q) ∧
    (∀ r b, (TestRenderer.with_dithering r b).device = r.device ∧
            (TestRenderer.with_dithering r b).queue = r.queue) ∧
    (∀ env r h,
      ((TestRenderer.render env r h).2.all (Step.usesOnly r.device r.queue)) = true) := by
  refine ⟨fun r => rfl, fun d q => ⟨rfl, rfl⟩, fun r b => ⟨rfl, rfl⟩, fun env r h => ?_⟩
  have key : ∀ s ∈ (h.textureDeltas.map (fun delta =>
      delta.set.map (fun p => Step.updateTexture r.device r.queue p.1 p.2))).flatten,
      Step.usesOnly r.device r.queue s = true := by
    intro s hs
    obtain ⟨l, hl, hsl⟩ := List.mem_flatten.mp hs
    obtain ⟨delta, _, rfl⟩ := List.mem_map.mp hl
    obtain ⟨p, _, rfl⟩ := List.mem_map.mp hsl
    simp [Step.usesOnly]
  rw [render_steps_eq, List.all_cons, List.all_append, List.all_eq_true.mpr key]
  simp [Step.usesOnly]

/-- C5: `TestRenderer::render` takes the renderer by shared reference and
mutates nothing: its entire result is a function of only the stored device,
queue and dithering flag (plus the harness and the GPU environment), and the
egui_wgpu renderer, the command encoder and the render-target texture are
created inside each call, as their creation steps in the call's trace show. -/
theorem render_shares_only_fields (env : RenderEnv) (r₁ r₂ : TestRenderer) (h : Harness)
    (hd : r₁.device = r₂.device) (hq : r₁.queue = r₂.queue)
    (hdi : r₁.dithering = r₂.dithering) :
    TestRenderer.render env r₁ h = TestRenderer.render env r₂ h ∧
    Step.createRenderer r₁.device TexFormat.rgba8Unorm 1 r₁.dithering
        ∈ (TestRenderer.render env r₁ h).2 ∧
    Step.createCommandEncoder r₁.device ∈ (TestRenderer.render env r₁ h).2 ∧
    Step.createTexture r₁.device
        (roundToU32 (h.ctx.screenRectSize.1 * h.ctx.pixelsPerPoint))
        (roundToU32 (h.ctx.screenRectSize.2 * h.ctx.pixelsPerPoint))
        TexFormat.rgba8Unorm ∈ (TestRenderer.render env r₁ h).2 := by
  obtain ⟨d₁, q₁, di₁⟩ := r₁
  obtain ⟨d₂, q₂, di₂⟩ := r₂
  cases hd
  cases hq
  cases hdi
  refine ⟨rfl, ?_, ?_, ?_⟩ <;> simp [TestRenderer.render]

/-- C5 witness: two syntactically different renderers with equal fields give
the same render result on a concrete harness. -/
theorem render_shares_only_fields_witness :
    ((TestRenderer.create sampleDevice sampleQueue).with_dithering false).device =
        sampleRenderer.device ∧
    ((TestRenderer.create sampleDevice sampleQueue).with_dithering false).queue =
        sampleRenderer.queue ∧
    ((TestRenderer.create sampleDevice sampleQueue).with_dithering false).dithering =
        sampleRenderer.dithering ∧
    TestRenderer.render sampleRenderEnv
        ((TestRenderer.create sampleDevice sampleQueue).with_dithering false) sampleHarness =
      TestRenderer.render sampleRenderEnv sampleRenderer sampleHarness :=
  ⟨rfl, rfl, rfl,
    (render_shares_only_fields sampleRenderEnv
      ((TestRenderer.create sampleDevice sampleQueue).with_dithering false)
      sampleRenderer sampleHarness rfl rfl rfl).1⟩

/-- C2: on the `WgpuSetup::CreateNew` path, when adapter acquisition fails
(through the native adapter selector or through `request_adapter`) or when
device acquisition fails, `TestRenderer::new` aborts with a panic message
(`Except.error` models the Rust `.expect` panic); it has no recoverable
error return value. -/
theorem new_aborts_on_missing_gpu (env : GpuEnv) (sb : Backends) (pp : PowerPreference)
    (ff : Bool) (dd : Adapter → DeviceDescriptor) (tp : Option String)
    (sel : Option (List Adapter → Option Adapter))
    (hfail : adapterOf env sb pp ff sel = none ∨
      ∃ a, adapterOf env sb pp ff sel = some a ∧ env.requestDevice a (dd a) tp = none) :
    ∃ msg, (TestRenderer.new env (.createNew sb pp ff dd tp sel)).2 = Except.error msg := by
  rcases sel with _ | selector
  · rcases hfail with hnone | ⟨a, ha, hdev⟩
    · simp only [adapterOf] at hnone
      exact ⟨"No adapter found using `request_adapter`", by simp [TestRenderer.new, hnone]⟩
    · simp only [adapterOf] at ha
      exact ⟨"Failed to request device", by simp [TestRenderer.new, ha, hdev]⟩
  · rcases hfail with hnone | ⟨a, ha, hdev⟩
    · simp only [adapterOf] at hnone
      exact ⟨"No adapter found.", by simp [TestRenderer.new, hnone]⟩
    · simp only [adapterOf] at ha
      exact ⟨"Failed to request device", by simp [TestRenderer.new, ha, hdev]⟩

/-- C2 witness: on a GPU environment where `request_adapter` finds nothing,
`TestRenderer::new` with a `CreateNew` setup aborts. -/
theorem new_aborts_on_missing_gpu_witness :
    adapterOf failGpuEnv 0 PowerPreference.noPreference false none = none ∧
    ∃ msg, (TestRenderer.new failGpuEnv
        (.createNew 0 PowerPreference.noPreference false (fun _ => ⟨0⟩) none none)).2 =
      Except.error msg :=
  ⟨rfl, new_aborts_on_missing_gpu failGpuEnv 0 PowerPreference.noPreference false
    (fun _ => ⟨0⟩) none none (Or.inl rfl)⟩

/-- C8: dithering is disabled by default: `TestRenderer::create` — and hence
every renderer `TestRenderer::new` returns — has the dithering flag `false`,
and `with_dithering b` returns the same renderer with the flag set to exactly
`b` and the device and queue handles unchanged. -/
theorem dithering_default_and_setter :
    (∀ d q, (TestRenderer.create d q).dithering = false) ∧
    (∀ env s r, (TestRenderer.new env s).2 = Except.ok r → r.dithering = false) ∧
    (∀ r b, TestRenderer.with_dithering r b =
      { device := r.device, queue := r.queue, dithering := b }) := by
  refine ⟨fun d q => rfl, ?_, fun r b => rfl⟩
  intro env s r hok
  rcases s with ⟨sb, pp, ff, dd, tp, sel⟩ | ⟨d, q⟩
  · rcases sel with _ | selector
    · simp only [TestRenderer.new] at hok
      rcases hA : env.requestAdapter pp ff with _ | a
      · simp [hA] at hok
      · rcases hD : env.requestDevice a (dd a) tp with _ | dq
        · simp [hA, hD] at hok
        · simp [hA, hD] at hok
          rw [← hok]
          rfl
    · simp only [TestRenderer.new] at hok
      rcases hA : selector (env.enumerateAdapters sb) with _ | a
      · simp [hA] at hok
      · rcases hD : env.requestDevice a (dd a) tp with _ | dq
        · simp [hA, hD] at hok
        · simp [hA, hD] at hok
          rw [← hok]
          rfl
  · simp only [TestRenderer.new] at hok
    simp at hok
    rw [← hok]
    rfl

/-- C8 witness: a concrete `new` call returns a renderer, and its dithering
flag is `false`. -/
theorem dithering_default_and_setter_witness :
    (TestRenderer.new failGpuEnv (.existing sampleDevice sampleQueue)).2 =
        Except.ok (TestRenderer.create sampleDevice sampleQueue) ∧
    (TestRenderer.create sampleDevice sampleQueue).dithering = false :=
  ⟨rfl, dithering_default_and_setter.2.1 failGpuEnv (.existing sampleDevice sampleQueue)
    (TestRenderer.create sampleDevice sampleQueue) rfl⟩

/-- C10: the render-target texture — and hence the returned image — has
width and height equal to the harness's screen-rect size times its
pixels-per-point value, each coordinate rounded to the nearest integer
(Rust `round` (half away from zero) then `as u32`, exact within the `u32`
range), and the render pass clears the target to fully transparent before
drawing. -/
theorem render_target_size_and_clear (env : RenderEnv) (r : TestRenderer) (h : Harness)
    (sx sy : Rat)
    (hsx : sx = h.ctx.screenRectSize.1 * h.ctx.pixelsPerPoint)
    (hsy : sy = h.ctx.screenRectSize.2 * h.ctx.pixelsPerPoint)
    (hx : 0 ≤ sx) (hy : 0 ≤ sy)
    (hbx : rustRound sx ≤ U32MAX) (hby : rustRound sy ≤ U32MAX) :
    (TestRenderer.render env r h).1.width = (rustRound sx).toNat ∧
    (TestRenderer.render env r h).1.height = (rustRound sy).toNat ∧
    Step.createTexture r.device (rustRound sx).toNat (rustRound sy).toNat
        TexFormat.rgba8Unorm ∈ (TestRenderer.render env r h).2 ∧
    Step.beginRenderPass (LoadOp.clear Color.transparent)
        ∈ (TestRenderer.render env r h).2 := by
  have ex := roundToU32_eq_toNat sx hx hbx
  have ey := roundToU32_eq_toNat sy hy hby
  subst hsx
  subst hsy
  refine ⟨?_, ?_, ?_, ?_⟩
  · rw [show (TestRenderer.render env r h).1.width =
        roundToU32 (h.ctx.screenRectSize.1 * h.ctx.pixelsPerPoint) from rfl, ex]
  · rw [show (TestRenderer.render env r h).1.height =
        roundToU32 (h.ctx.screenRectSize.2 * h.ctx.pixelsPerPoint) from rfl, ey]
  · rw [render_steps_eq, ← ex, ← ey]
    simp
  · rw [render_steps_eq]
    simp

/-- C10 witness: on the sample harness (3 x 2 points at 2 pixels per point)
the returned image is 6 pixels wide and 4 pixels tall. -/
theorem render_target_size_and_clear_witness :
    (6 : Rat) = sampleHarness.ctx.screenRectSize.1 * sampleHarness.ctx.pixelsPerPoint ∧
    (4 : Rat) = sampleHarness.ctx.screenRectSize.2 * sampleHarness.ctx.pixelsPerPoint ∧
    (0 : Rat) ≤ 6 ∧ (0 : Rat) ≤ 4 ∧
    rustRound 6 ≤ U32MAX ∧ rustRound 4 ≤ U32MAX ∧
    (TestRenderer.render sampleRenderEnv sampleRenderer sampleHarness).1.width =
        (rustRound 6).toNat ∧
    (TestRenderer.render sampleRenderEnv sampleRenderer sampleHarness).1.height =
        (rustRound 4).toNat :=
  ⟨by norm_num [sampleHarness], by norm_num [sampleHarness], by decide, by decide,
    by decide, by decide,
    (render_target_size_and_clear sampleRenderEnv sampleRenderer sampleHarness 6 4
      (by norm_num [sampleHarness]) (by norm_num [sampleHarness])
      (by decide) (by decide) (by decide) (by decide)).1,
    (render_target_size_and_clear sampleRenderEnv sampleRenderer sampleHarness 6 4
      (by norm_num [sampleHarness]) (by norm_num [sampleHarness])
      (by decide) (by decide) (by decide) (by decide)).2.1⟩

end Egui
